import Mathlib

/-!
# Verification of the rl-test-gen execution harness

Shallow embedding of `src/rl/executor/docker_runner.py` (the sandboxed
multi-variant execution harness) and `src/rl/data/dataset.py` (the problem
corpus loader), together with theorems settling the specified properties.

The Docker backend is abstracted as an oracle: each container run either
returns an exit code with logs, raises `docker.errors.ContainerError`,
raises a timeout from `container.wait`, or raises some other exception —
exactly the cases distinguished by the `try/except` structure of
`DockerTestExecutor.execute_tests`.  Side effects on the host and on the
Docker daemon are recorded as an explicit action trace, so that properties
about isolation (network mode, temp-directory freshness and cleanup,
container termination) are statable.
-/

namespace RLTestGen

/-- The dict returned by `DockerTestExecutor.execute_tests`:
`{'passed': bool, 'exit_code': int, 'output': str, 'error': Optional[str]}`. -/
structure ExecutionResult where
  passed : Bool
  exit_code : Int
  output : String
  error : Option String
deriving DecidableEq, Repr

/-- Outcome of the Docker backend for one container run, as observed by the
`try/except` blocks in `execute_tests`:
* `success`: `container.wait` returned `{'StatusCode': exitCode}` and
  `container.logs()` returned `logs`;
* `containerError`: `docker.errors.ContainerError` was raised by
  `client.containers.run` (so `container.wait` was never reached);
* `timeoutExpired`: `client.containers.run` succeeded and
  `container.wait(timeout=...)` raised its timeout exception (caught by the
  generic `except Exception` branch), so nothing after the wait ran;
* `otherException`: any other exception raised inside the `try` block —
  by `client.containers.run` itself (image missing, daemon unreachable,
  resource exhaustion) or by a later call — caught by the generic
  `except Exception` branch. -/
inductive RunOutcome where
  | success (exitCode : Int) (logs : String)
  | containerError (exitStatus : Int) (stderr : Option String) (msg : String)
  | timeoutExpired (msg : String)
  | otherException (msg : String)
deriving DecidableEq, Repr

/-- One observable effect of `execute_tests` on the host filesystem or the
Docker daemon.  `killContainer` is in the vocabulary so that forcible
termination of a running container is statable; the source never issues it. -/
inductive DockerAction where
  | createTempDir (dir : Nat)
  | writeFile (dir : Nat) (name : String) (content : String)
  | runContainer (dir : Nat) (networkMode : String) (command : List String)
  | wait (timeout : Nat)
  | getLogs
  | removeContainer
  | killContainer
  | removeTempDir (dir : Nat)
deriving DecidableEq, Repr

/-- `DockerTestExecutor.execute_tests`, lines 48–128 of
`src/rl/executor/docker_runner.py`.  `dir` identifies the fresh temporary
directory created by `tempfile.TemporaryDirectory()` for this invocation.
The returned trace lists, in program order, the effects certain to have
occurred on that branch: the directory creation, the two file writes and
the `client.containers.run` call always precede any caught exception; the
`wait` (carrying the wall-clock timeout) is recorded only where
`container.wait` is known to have been reached — the success path and the
timeout path; on `containerError` the exception came from
`client.containers.run`, and on `otherException` the raise point is not
observable from the result, so no later action is asserted.  The `with`
block guarantees `removeTempDir` on every path, and `container.remove()`
is only reached on the non-exceptional path.  Every exceptional path is
absorbed into a returned `ExecutionResult`, mirroring the `except`
clauses. -/
def execute_tests (timeout : Nat) (test_code target_code : String) (dir : Nat)
    (o : RunOutcome) : ExecutionResult × List DockerAction :=
  let pre : List DockerAction :=
    [DockerAction.createTempDir dir,
     DockerAction.writeFile dir "test_generated.py" test_code,
     DockerAction.writeFile dir "solution.py" target_code,
     DockerAction.runContainer dir "none"
       ["pytest", "test_generated.py", "-v", "--tb=short"]]
  match o with
  | RunOutcome.success exitCode logs =>
      ({ passed := exitCode == 0, exit_code := exitCode, output := logs,
         error := none },
       pre ++ [DockerAction.wait timeout, DockerAction.getLogs,
               DockerAction.removeContainer, DockerAction.removeTempDir dir])
  | RunOutcome.containerError st stderr msg =>
      ({ passed := false, exit_code := st, output := stderr.getD "",
         error := some ("Container error: " ++ msg) },
       pre ++ [DockerAction.removeTempDir dir])
  | RunOutcome.timeoutExpired msg =>
      ({ passed := false, exit_code := -1, output := "",
         error := some ("Execution failed: " ++ msg) },
       pre ++ [DockerAction.wait timeout, DockerAction.removeTempDir dir])
  | RunOutcome.otherException msg =>
      ({ passed := false, exit_code := -1, output := "",
         error := some ("Execution failed: " ++ msg) },
       pre ++ [DockerAction.removeTempDir dir])

/-- The dict returned by `DockerTestExecutor.execute_test_suite`. The
`results` dict is an association list in insertion order. -/
structure SuiteOutput where
  correct_passed : Bool
  detections : List Bool
  detection_rate : ℚ
  results : List (String × ExecutionResult)
deriving DecidableEq, Repr

/-- The `for i, perturb_code in enumerate(perturbations)` loop of
`execute_test_suite`: each iteration runs `execute_tests` on one
perturbation and records the result under key `f'perturbation_{i}'`.
Invocation number `i + 1` uses temp directory `i + 1` and backend outcome
`oracle (i + 1)` (invocation 0 is the reference run). -/
def runPerturbations (timeout : Nat) (test_code : String)
    (oracle : Nat → RunOutcome) :
    List String → Nat → List (String × ExecutionResult × List DockerAction)
  | [], _ => []
  | p :: ps, i =>
      let r := execute_tests timeout test_code p (i + 1) (oracle (i + 1))
      ("perturbation_" ++ toString i, r.1, r.2) ::
        runPerturbations timeout test_code oracle ps (i + 1)

/-- `DockerTestExecutor.execute_test_suite`, lines 130–179 of
`src/rl/executor/docker_runner.py`.  Runs the test suite against the
correct implementation (stored under key `'correct'`) and then against each
perturbation in order; `detections[i]` is `not perturb_result['passed']`;
`detection_rate = sum(detections) / len(detections) if detections else 0.0`.
The returned trace is the concatenation of the six per-invocation traces. -/
def execute_test_suite (timeout : Nat) (test_code correct_code : String)
    (perturbations : List String) (oracle : Nat → RunOutcome) :
    SuiteOutput × List DockerAction :=
  let correct := execute_tests timeout test_code correct_code 0 (oracle 0)
  let entries := runPerturbations timeout test_code oracle perturbations 0
  let detections := entries.map (fun e => !e.2.1.passed)
  let detection_rate : ℚ :=
    if detections.isEmpty then 0
    else (detections.count true : ℚ) / (detections.length : ℚ)
  ({ correct_passed := correct.1.passed,
     detections := detections,
     detection_rate := detection_rate,
     results := ("correct", correct.1) :: entries.map (fun e => (e.1, e.2.1)) },
   correct.2 ++ (entries.map (fun e => e.2.2)).flatten)

/-- Modelled from the spec: `RewardPolicy.score` (§4.3).  The source module
`env/test_gen_env.py` holding `TestGenEnv` and its reward computation is
not under `src/`; only its caller `src/rl/example_usage.py` is.  Per the
spec: if `correct_passed == false` the reward is −1.0, else the reward is
`detection_rate`. -/
def score (s : SuiteOutput) : ℚ :=
  if s.correct_passed then s.detection_rate else -1

/-! ## Problem dataset loader (`src/rl/data/dataset.py`) -/

/-- A parsed JSON value, distinguishing exactly what
`ProblemDataset._validate_problem` distinguishes with `isinstance`:
strings, lists, and everything else (numbers, booleans, nested objects…). -/
inductive PyVal where
  | str (s : String)
  | list (xs : List PyVal)
  | other

/-- `isinstance(v, str)`. -/
def PyVal.isStr : PyVal → Bool
  | PyVal.str _ => true
  | _ => false

/-- `isinstance(v, list)`. -/
def PyVal.isList : PyVal → Bool
  | PyVal.list _ => true
  | _ => false

/-- A problem JSON object, as a key/value association list. -/
def Problem := List (String × PyVal)

/-- `ProblemDataset._validate_problem`, lines 49–76 of
`src/rl/data/dataset.py`: raises `ValueError` (modelled as `Except.error`)
when a required field is missing, `perturbations` is not a list or does not
have exactly 5 elements, or `spec`/`problem` is not a string — in that
order.  Note the source checks neither the types of the elements of
`perturbations` nor the syntax of any code body. -/
def validate_problem (filename : String) (problem : Problem) : Except String Unit :=
  if (List.lookup "spec" problem).isNone then
    Except.error (filename ++ ": Missing required field spec")
  else if (List.lookup "problem" problem).isNone then
    Except.error (filename ++ ": Missing required field problem")
  else if (List.lookup "perturbations" problem).isNone then
    Except.error (filename ++ ": Missing required field perturbations")
  else
    match List.lookup "perturbations" problem with
    | some (PyVal.list xs) =>
        if xs.length ≠ 5 then
          Except.error (filename ++ ": Expected exactly 5 perturbations")
        else if !((List.lookup "spec" problem).getD PyVal.other).isStr then
          Except.error (filename ++ ": spec must be a string")
        else if !((List.lookup "problem" problem).getD PyVal.other).isStr then
          Except.error (filename ++ ": problem must be a string")
        else Except.ok ()
    | _ => Except.error (filename ++ ": perturbations must be a list")

/-- Content of one `*.json` file in the dataset directory: either
`json.load` raises `JSONDecodeError`, or it yields a parsed object. -/
inductive FileContent where
  | parseError (msg : String)
  | parsed (problem : Problem)

/-- The body of the `for json_file in json_files` loop of
`ProblemDataset._load_problems`: `json.JSONDecodeError` and the
`ValueError` raised by `_validate_problem` are both caught, a warning is
printed, and the file is skipped (`none`); otherwise the problem is stored
with its `_filename` (modelled as the first pair component). -/
def load_file : String × FileContent → Option (String × Problem)
  | (_, FileContent.parseError _) => none
  | (name, FileContent.parsed p) =>
      match validate_problem name p with
      | Except.ok _ => some (name, p)
      | Except.error _ => none

/-- `ProblemDataset._load_problems`, lines 22–47 of `src/rl/data/dataset.py`,
over the list of (filename, content) pairs found in the dataset directory.
`ValueError` is raised when no JSON files are found or when no valid
problem survives the loop. -/
def load_problems (files : List (String × FileContent)) :
    Except String (List (String × Problem)) :=
  if files.isEmpty then Except.error "No JSON files found"
  else if (files.filterMap load_file).isEmpty then
    Except.error "No valid problems loaded from dataset"
  else Except.ok (files.filterMap load_file)

/-! ## Observables of traces -/

/-- Is this action a container start (`client.containers.run`)?  One such
action is emitted per Sandbox invocation. -/
def DockerAction.isRun : DockerAction → Bool
  | DockerAction.runContainer _ _ _ => true
  | _ => false

/-- The identities of the temporary directories created along a trace, in
order of creation. -/
def dirsOf (tr : List DockerAction) : List Nat :=
  tr.filterMap (fun a =>
    match a with
    | DockerAction.createTempDir d => some d
    | _ => none)

/-- Isolation discipline of a single action relative to working directory
`d`: containers are started with `network_mode="none"` on directory `d`,
and host file writes land only in `d`. -/
def isolatedIn (d : Nat) : DockerAction → Bool
  | DockerAction.runContainer d2 nm _ => d2 == d && nm == "none"
  | DockerAction.writeFile d2 _ _ => d2 == d
  | _ => true

/-! ## Concrete dataset fixtures -/

/-- A well-formed problem file: all required fields, 5 string perturbations. -/
def goodProblem : Problem :=
  [("spec", PyVal.str "s"), ("problem", PyVal.str "p"),
   ("perturbations", PyVal.list
     [PyVal.str "a", PyVal.str "b", PyVal.str "c",
      PyVal.str "d", PyVal.str "e"])]

/-- A problem file missing the required `problem` field. -/
def missingFieldProblem : Problem := [("spec", PyVal.str "s")]

/-- A problem file whose `perturbations` has 5 non-string elements. -/
def badPerturbElems : Problem :=
  [("spec", PyVal.str "s"), ("problem", PyVal.str "p"),
   ("perturbations", PyVal.list
     [PyVal.other, PyVal.other, PyVal.other, PyVal.other, PyVal.other])]

/-! ## Basic lemmas about single executions -/

theorem execute_tests_trace_countP_isRun (t : Nat) (tc gc : String) (d : Nat)
    (o : RunOutcome) :
    (execute_tests t tc gc d o).2.countP DockerAction.isRun = 1 := by
  cases o <;> rfl

theorem dirsOf_execute_tests (t : Nat) (tc gc : String) (d : Nat)
    (o : RunOutcome) :
    dirsOf (execute_tests t tc gc d o).2 = [d] := by
  cases o <;> rfl

/-! ## Theorems for the claims -/

/-- C3: every `execute_tests` call returns a structured `ExecutionResult`
(the function is total over all backend outcomes, so no exception escapes):
a runner exit code of 0 yields `passed = true` and any nonzero exit code
yields `passed = false` (via `passed = (exit_code == 0)`), while every
exceptional path — container error, timeout, infrastructure failure — is
absorbed into a result with `passed = false` and `error` populated. -/
theorem execute_tests_structured_no_throw (t : Nat) (tc gc : String) (d : Nat)
    (o : RunOutcome) :
    (∀ ec logs, o = RunOutcome.success ec logs →
        (execute_tests t tc gc d o).1.passed = (ec == 0) ∧
        (execute_tests t tc gc d o).1.exit_code = ec ∧
        (execute_tests t tc gc d o).1.error = none) ∧
    (∀ st se msg, o = RunOutcome.containerError st se msg →
        (execute_tests t tc gc d o).1.passed = false ∧
        (execute_tests t tc gc d o).1.error = some ("Container error: " ++ msg)) ∧
    (∀ msg, o = RunOutcome.timeoutExpired msg →
        (execute_tests t tc gc d o).1.passed = false ∧
        (execute_tests t tc gc d o).1.error = some ("Execution failed: " ++ msg)) ∧
    (∀ msg, o = RunOutcome.otherException msg →
        (execute_tests t tc gc d o).1.passed = false ∧
        (execute_tests t tc gc d o).1.error = some ("Execution failed: " ++ msg)) := by
  refine ⟨?_, ?_, ?_, ?_⟩
  · rintro ec logs rfl; exact ⟨rfl, rfl, rfl⟩
  · rintro st se msg rfl; exact ⟨rfl, rfl⟩
  · rintro msg rfl; exact ⟨rfl, rfl⟩
  · rintro msg rfl; exact ⟨rfl, rfl⟩

/-- Witness for C3 at concrete inputs: a successful exit-0 run passes, and
an infrastructure exception is absorbed with `error` populated. -/
theorem execute_tests_structured_no_throw_witness :
    (execute_tests 30 "t" "g" 0 (RunOutcome.success 0 "ok")).1.passed = true ∧
    (execute_tests 30 "t" "g" 1 (RunOutcome.otherException "daemon down")).1.passed = false ∧
    (execute_tests 30 "t" "g" 1 (RunOutcome.otherException "daemon down")).1.error =
      some "Execution failed: daemon down" := by
  have h1 :=
    (execute_tests_structured_no_throw 30 "t" "g" 0 (RunOutcome.success 0 "ok")).1
      0 "ok" rfl
  have h2 :=
    (execute_tests_structured_no_throw 30 "t" "g" 1
      (RunOutcome.otherException "daemon down")).2.2.2 "daemon down" rfl
  exact ⟨h1.1, h2.1, h2.2⟩

/-- C8 counterexample: a plain failing pytest run (exit code 1, the
non-exceptional path) returns `passed = false` with `error = None`, so
`error` is not populated on every failure. -/
theorem failed_run_error_none_counterexample :
    (execute_tests 30 "t" "g" 0 (RunOutcome.success 1 "1 failed")).1.passed = false ∧
    (execute_tests 30 "t" "g" 0 (RunOutcome.success 1 "1 failed")).1.error = none := by
  exact ⟨rfl, rfl⟩

/-- C8 (amended): `error` is populated exactly on the exception paths
(container error, timeout, infrastructure failure); a plain nonzero runner
exit yields `passed = false` with `error = None`, the cause then being
distinguishable via `output`. -/
theorem error_populated_iff_exception (t : Nat) (tc gc : String) (d : Nat)
    (o : RunOutcome) :
    (execute_tests t tc gc d o).1.error = none ↔
      ∃ ec logs, o = RunOutcome.success ec logs := by
  cases o <;> simp [execute_tests]

/-- Witness for C8's amended theorem at concrete inputs. -/
theorem error_populated_iff_exception_witness :
    (execute_tests 30 "t" "g" 0 (RunOutcome.success 1 "out")).1.error = none := by
  exact (error_populated_iff_exception 30 "t" "g" 0 (RunOutcome.success 1 "out")).2
    ⟨1, "out", rfl⟩

/-- C5 counterexample: on the timeout path the result has `passed = false`,
`exit_code = -1` and a populated `error`, but the executor never issues a
kill or remove for the still-running container — the running process is
not forcibly terminated, refuting the claim as stated. -/
theorem timeout_not_terminated_counterexample :
    (execute_tests 30 "t" "g" 0 (RunOutcome.timeoutExpired "read timed out")).1.passed = false ∧
    (execute_tests 30 "t" "g" 0 (RunOutcome.timeoutExpired "read timed out")).1.exit_code = -1 ∧
    (execute_tests 30 "t" "g" 0 (RunOutcome.timeoutExpired "read timed out")).1.error =
      some "Execution failed: read timed out" ∧
    DockerAction.killContainer ∉
      (execute_tests 30 "t" "g" 0 (RunOutcome.timeoutExpired "read timed out")).2 ∧
    DockerAction.removeContainer ∉
      (execute_tests 30 "t" "g" 0 (RunOutcome.timeoutExpired "read timed out")).2 := by
  refine ⟨rfl, rfl, rfl, ?_, ?_⟩ <;> decide

/-- C5 (amended): on timeout the returned result has `passed = false`,
`exit_code = -1` and `error` populated with the caught exception message,
but the running container is neither killed nor removed by the executor. -/
theorem timeout_result_fields_no_kill (t : Nat) (tc gc : String) (d : Nat)
    (msg : String) :
    (execute_tests t tc gc d (RunOutcome.timeoutExpired msg)).1.passed = false ∧
    (execute_tests t tc gc d (RunOutcome.timeoutExpired msg)).1.exit_code = -1 ∧
    (execute_tests t tc gc d (RunOutcome.timeoutExpired msg)).1.error =
      some ("Execution failed: " ++ msg) ∧
    DockerAction.killContainer ∉
      (execute_tests t tc gc d (RunOutcome.timeoutExpired msg)).2 ∧
    DockerAction.removeContainer ∉
      (execute_tests t tc gc d (RunOutcome.timeoutExpired msg)).2 := by
  refine ⟨rfl, rfl, rfl, ?_, ?_⟩ <;> simp [execute_tests]

/-- Witness for C5's amended theorem at a concrete input. -/
theorem timeout_result_fields_no_kill_witness :
    (execute_tests 7 "tc" "gc" 2 (RunOutcome.timeoutExpired "timeout")).1.passed = false ∧
    DockerAction.removeContainer ∉
      (execute_tests 7 "tc" "gc" 2 (RunOutcome.timeoutExpired "timeout")).2 := by
  have h := timeout_result_fields_no_kill 7 "tc" "gc" 2 "timeout"
  exact ⟨h.1, h.2.2.2.2⟩

/-! ## Structure of the perturbation loop -/

theorem runPerturbations_length (t : Nat) (tc : String)
    (oracle : Nat → RunOutcome) :
    ∀ (ps : List String) (i : Nat),
      (runPerturbations t tc oracle ps i).length = ps.length
  | [], _ => rfl
  | _ :: ps, i => by
      simp [runPerturbations, runPerturbations_length t tc oracle ps (i + 1)]

theorem runPerturbations_detections_getD (t : Nat) (tc : String)
    (oracle : Nat → RunOutcome) :
    ∀ (ps : List String) (i j : Nat), j < ps.length →
      ((runPerturbations t tc oracle ps i).map
          (fun e => !e.2.1.passed)).getD j false =
        !(execute_tests t tc (ps.getD j "") (i + j + 1)
            (oracle (i + j + 1))).1.passed
  | [], _, j, h => absurd h (by simp)
  | p :: ps, i, 0, _ => by simp [runPerturbations]
  | p :: ps, i, j + 1, h => by
      have ih := runPerturbations_detections_getD t tc oracle ps (i + 1) j
        (by simpa using Nat.lt_of_succ_lt_succ h)
      have e1 : i + (j + 1) + 1 = i + 1 + j + 1 := by omega
      simp only [runPerturbations, List.map_cons, List.getD_cons_succ,
        List.getD_cons_succ, e1]
      exact ih

theorem runPerturbations_trace_countP (t : Nat) (tc : String)
    (oracle : Nat → RunOutcome) :
    ∀ (ps : List String) (i : Nat),
      (((runPerturbations t tc oracle ps i).map
          (fun e => e.2.2)).flatten).countP DockerAction.isRun = ps.length
  | [], _ => rfl
  | p :: ps, i => by
      simp [runPerturbations, List.countP_append,
        execute_tests_trace_countP_isRun,
        runPerturbations_trace_countP t tc oracle ps (i + 1)]
      omega

theorem dirsOf_runPerturbations (t : Nat) (tc : String)
    (oracle : Nat → RunOutcome) :
    ∀ (ps : List String) (i : Nat),
      dirsOf (((runPerturbations t tc oracle ps i).map
          (fun e => e.2.2)).flatten) = List.range' (i + 1) ps.length
  | [], _ => rfl
  | p :: ps, i => by
      have ih := dirsOf_runPerturbations t tc oracle ps (i + 1)
      have h1 := dirsOf_execute_tests t tc p (i + 1) (oracle (i + 1))
      simp only [dirsOf] at h1 ih
      simp only [runPerturbations, List.map_cons, List.flatten_cons, dirsOf,
        List.filterMap_append, h1, ih, List.length_cons, List.range'_succ,
        List.singleton_append]

theorem dirsOf_suite (t : Nat) (tc cc : String) (ps : List String)
    (oracle : Nat → RunOutcome) :
    dirsOf (execute_test_suite t tc cc ps oracle).2 =
      List.range (ps.length + 1) := by
  have h0 := dirsOf_execute_tests t tc cc 0 (oracle 0)
  have h1 := dirsOf_runPerturbations t tc oracle ps 0
  simp only [dirsOf] at h0 h1 ⊢
  simp only [execute_test_suite, List.filterMap_append, h0, h1,
    List.range_eq_range', List.range'_succ]
  rfl

/-- C10: with an empty perturbations list, `execute_test_suite` returns
(totally) with `detections = []` and `detection_rate = 0.0`: the division
by `len(detections)` is guarded by the emptiness check. -/
theorem empty_perturbations_guarded (t : Nat) (tc cc : String)
    (oracle : Nat → RunOutcome) :
    (execute_test_suite t tc cc [] oracle).1.detections = [] ∧
    (execute_test_suite t tc cc [] oracle).1.detection_rate = 0 := by
  exact ⟨rfl, rfl⟩

/-- C1: with a 5-element perturbations sequence, `detections` has length 5,
`detections[i]` is true iff the execution against `perturbations[i]` did
not pass, and `detection_rate` is exactly `sum(detections) / 5` (the sum of
a boolean vector being its count of `True`s). -/
theorem suite_detections_spec (t : Nat) (tc cc : String) (ps : List String)
    (oracle : Nat → RunOutcome) (h : ps.length = 5) :
    (execute_test_suite t tc cc ps oracle).1.detections.length = 5 ∧
    (∀ j, j < 5 →
      (execute_test_suite t tc cc ps oracle).1.detections.getD j false =
        !(execute_tests t tc (ps.getD j "") (j + 1) (oracle (j + 1))).1.passed) ∧
    (execute_test_suite t tc cc ps oracle).1.detection_rate =
      ((execute_test_suite t tc cc ps oracle).1.detections.count true : ℚ) / 5 := by
  have hlen : (execute_test_suite t tc cc ps oracle).1.detections.length = 5 := by
    simp [execute_test_suite, runPerturbations_length, h]
  refine ⟨hlen, ?_, ?_⟩
  · intro j hj
    have hd := runPerturbations_detections_getD t tc oracle ps 0 j (by omega)
    simp only [Nat.zero_add] at hd
    exact hd
  · have hne : ¬ (execute_test_suite t tc cc ps oracle).1.detections.isEmpty := by
      intro he
      rw [List.isEmpty_iff] at he
      rw [he] at hlen
      simp at hlen
    simp only [List.isEmpty_iff] at hne
    show (if ((runPerturbations t tc oracle ps 0).map
            (fun e => !e.2.1.passed)).isEmpty then (0 : ℚ)
          else _) = _
    rw [if_neg (by simpa [execute_test_suite, List.isEmpty_iff] using hne)]
    have : ((execute_test_suite t tc cc ps oracle).1.detections.length : ℚ) = 5 := by
      rw [hlen]; norm_num
    simp only [execute_test_suite] at this ⊢
    rw [this]

/-- Witness for C1 at a concrete input (position 0 instantiated). -/
theorem suite_detections_spec_witness :
    (execute_test_suite 30 "t" "c" ["a", "b", "c2", "d", "e2"]
      (fun _ => RunOutcome.success 0 "")).1.detections.length = 5 ∧
    (execute_test_suite 30 "t" "c" ["a", "b", "c2", "d", "e2"]
      (fun _ => RunOutcome.success 0 "")).1.detections.getD 0 false =
      !(execute_tests 30 "t" "a" 1 (RunOutcome.success 0 "")).1.passed := by
  have h := suite_detections_spec 30 "t" "c" ["a", "b", "c2", "d", "e2"]
    (fun _ => RunOutcome.success 0 "") rfl
  exact ⟨h.1, h.2.1 0 (by omega)⟩

/-- C4: `execute_test_suite` performs exactly 6 container runs (one per
Sandbox invocation) when given 5 perturbations, whatever the outcome of
every individual invocation — the count is independent of the oracle. -/
theorem suite_six_invocations (t : Nat) (tc cc : String) (ps : List String)
    (oracle : Nat → RunOutcome) (h : ps.length = 5) :
    (execute_test_suite t tc cc ps oracle).2.countP DockerAction.isRun = 6 := by
  show ((execute_tests t tc cc 0 (oracle 0)).2 ++
      ((runPerturbations t tc oracle ps 0).map
        (fun e => e.2.2)).flatten).countP DockerAction.isRun = 6
  rw [List.countP_append, execute_tests_trace_countP_isRun,
    runPerturbations_trace_countP, h]

/-- Witness for C4 at a concrete input. -/
theorem suite_six_invocations_witness :
    (execute_test_suite 30 "t" "c" ["a", "b", "c2", "d", "e2"]
      (fun _ => RunOutcome.success 0 "")).2.countP DockerAction.isRun = 6 := by
  exact suite_six_invocations 30 "t" "c" ["a", "b", "c2", "d", "e2"]
    (fun _ => RunOutcome.success 0 "") rfl

/-- C6 counterexample: the wall-clock timeout is not enforced on the test
runner.  At a concrete timed-out invocation the executor has waited out its
budget (the `wait` carrying the timeout is in the trace) yet the container
is neither killed nor removed — the runner outlives its wall-clock budget,
refuting the isolation contract as stated. -/
theorem timeout_unbounded_runner_counterexample :
    DockerAction.wait 5 ∈
      (execute_tests 5 "tests" "target" 3
        (RunOutcome.timeoutExpired "timed out")).2 ∧
    DockerAction.killContainer ∉
      (execute_tests 5 "tests" "target" 3
        (RunOutcome.timeoutExpired "timed out")).2 ∧
    DockerAction.removeContainer ∉
      (execute_tests 5 "tests" "target" 3
        (RunOutcome.timeoutExpired "timed out")).2 := by
  refine ⟨?_, ?_, ?_⟩ <;> decide

/-- C6 (amended): every execution starts its container with
`network_mode = "none"`, writes files only into its own fresh working
directory, creates that directory first and removes it last on every exit
path, and across one suite evaluation the working directories of the
`perturbations.length + 1` invocations are pairwise distinct (`List.range`
is duplicate-free), so a directory is never reused.  The executor's wait on
the runner is bounded by the wall-clock timeout, but the timeout is not
enforced on the runner itself: on expiry the container is neither killed
nor removed, and keeps running. -/
theorem sandbox_isolation_contract (t : Nat) (tc gc : String) (d : Nat)
    (o : RunOutcome) (cc : String) (ps : List String)
    (oracle : Nat → RunOutcome) (msg : String) :
    (execute_tests t tc gc d o).2.all (isolatedIn d) = true ∧
    (execute_tests t tc gc d o).2.head? = some (DockerAction.createTempDir d) ∧
    (execute_tests t tc gc d o).2.getLast? = some (DockerAction.removeTempDir d) ∧
    dirsOf (execute_test_suite t tc cc ps oracle).2 =
      List.range (ps.length + 1) ∧
    DockerAction.wait t ∈
      (execute_tests t tc gc d (RunOutcome.timeoutExpired msg)).2 ∧
    DockerAction.killContainer ∉
      (execute_tests t tc gc d (RunOutcome.timeoutExpired msg)).2 ∧
    DockerAction.removeContainer ∉
      (execute_tests t tc gc d (RunOutcome.timeoutExpired msg)).2 := by
  refine ⟨?_, ?_, ?_, dirsOf_suite t tc cc ps oracle, ?_, ?_, ?_⟩
  · cases o <;> simp [execute_tests, isolatedIn]
  · cases o <;> rfl
  · cases o <;> rfl
  · simp [execute_tests]
  · simp [execute_tests]
  · simp [execute_tests]

/-- Witness for C6's amended theorem at concrete inputs. -/
theorem sandbox_isolation_contract_witness :
    (execute_tests 30 "t" "g" 0 (RunOutcome.success 0 "")).2.getLast? =
      some (DockerAction.removeTempDir 0) ∧
    DockerAction.killContainer ∉
      (execute_tests 30 "t" "g" 0 (RunOutcome.timeoutExpired "x")).2 := by
  have h := sandbox_isolation_contract 30 "t" "g" 0 (RunOutcome.success 0 "")
    "c" ["a"] (fun _ => RunOutcome.success 0 "") "x"
  exact ⟨h.2.2.1, h.2.2.2.2.2.1⟩

/-- C7 counterexample: the reference result is not stored under the key
`"reference"`; the actual key is `"correct"`. -/
theorem reference_key_absent_counterexample :
    "reference" ∉ ((execute_test_suite 30 "t" "c" ["a", "b", "c2", "d", "e2"]
      (fun _ => RunOutcome.success 0 "")).1.results.map Prod.fst) ∧
    "correct" ∈ ((execute_test_suite 30 "t" "c" ["a", "b", "c2", "d", "e2"]
      (fun _ => RunOutcome.success 0 "")).1.results.map Prod.fst) := by
  exact ⟨by decide, by decide⟩

/-- C7 (amended): all six `ExecutionResult`s are persisted, in insertion
order, under the stable keys `"correct"`, `"perturbation_0"` …
`"perturbation_4"`. -/
theorem suite_results_keys (t : Nat) (tc cc p0 p1 p2 p3 p4 : String)
    (oracle : Nat → RunOutcome) :
    (execute_test_suite t tc cc [p0, p1, p2, p3, p4] oracle).1.results.map
        Prod.fst =
      ["correct", "perturbation_0", "perturbation_1", "perturbation_2",
       "perturbation_3", "perturbation_4"] := by
  rfl

/-- C2: the reward is −1.0 whenever the suite fails the reference, whatever
the detection vector; otherwise it is exactly `detection_rate`, which lies
in [0, 1]. -/
theorem reward_policy_spec (t : Nat) (tc cc : String) (ps : List String)
    (oracle : Nat → RunOutcome) :
    ((execute_test_suite t tc cc ps oracle).1.correct_passed = false →
      score (execute_test_suite t tc cc ps oracle).1 = -1) ∧
    ((execute_test_suite t tc cc ps oracle).1.correct_passed = true →
      score (execute_test_suite t tc cc ps oracle).1 =
        (execute_test_suite t tc cc ps oracle).1.detection_rate ∧
      0 ≤ (execute_test_suite t tc cc ps oracle).1.detection_rate ∧
      (execute_test_suite t tc cc ps oracle).1.detection_rate ≤ 1) := by
  constructor
  · intro h
    simp [score, h]
  · intro h
    refine ⟨by simp [score, h], ?_, ?_⟩
    · show (0 : ℚ) ≤ if ((runPerturbations t tc oracle ps 0).map
          (fun e => !e.2.1.passed)).isEmpty then (0 : ℚ) else _
      split
      · exact le_refl 0
      · positivity
    · show (if ((runPerturbations t tc oracle ps 0).map
          (fun e => !e.2.1.passed)).isEmpty then (0 : ℚ) else _) ≤ 1
      split
      · exact zero_le_one
      · rename_i hne
        rw [List.isEmpty_iff] at hne
        have hlp : 0 < (((runPerturbations t tc oracle ps 0).map
            (fun e => !e.2.1.passed)).length : ℚ) := by
          exact_mod_cast List.length_pos.mpr hne
        rw [div_le_one hlp]
        exact_mod_cast List.count_le_length _ _

/-- Witness for C2 at concrete inputs: one failing reference (reward −1)
and one passing reference (reward = detection rate). -/
theorem reward_policy_spec_witness :
    score (execute_test_suite 30 "t" "c" ["a"]
      (fun _ => RunOutcome.success 1 "")).1 = -1 ∧
    score (execute_test_suite 30 "t" "c" ["a"]
      (fun _ => RunOutcome.success 0 "")).1 =
      (execute_test_suite 30 "t" "c" ["a"]
        (fun _ => RunOutcome.success 0 "")).1.detection_rate := by
  constructor
  · exact (reward_policy_spec 30 "t" "c" ["a"]
      (fun _ => RunOutcome.success 1 "")).1 rfl
  · exact ((reward_policy_spec 30 "t" "c" ["a"]
      (fun _ => RunOutcome.success 0 "")).2 rfl).1

/-! ## Dataset loading -/

theorem isStr_exists : ∀ v : PyVal, v.isStr = true → ∃ s, v = PyVal.str s
  | PyVal.str s, _ => ⟨s, rfl⟩

theorem validate_problem_ok_inv (filename : String) (p : Problem)
    (h : validate_problem filename p = Except.ok ()) :
    (∃ xs, List.lookup "perturbations" p = some (PyVal.list xs) ∧
      xs.length = 5) ∧
    (∃ s, List.lookup "spec" p = some (PyVal.str s)) ∧
    (∃ s, List.lookup "problem" p = some (PyVal.str s)) := by
  unfold validate_problem at h
  split at h
  · simp at h
  split at h
  · simp at h
  split at h
  · simp at h
  rename_i hs hp hq
  split at h
  · rename_i xs heq
    split at h
    · simp at h
    split at h
    · simp at h
    split at h
    · simp at h
    rename_i hlen hspec hprob
    refine ⟨⟨xs, heq, by omega⟩, ?_, ?_⟩
    · rcases hlook : List.lookup "spec" p with _ | v
      · exact absurd (by rw [hlook]; rfl) hs
      · rw [hlook] at hspec
        rcases isStr_exists v (by simpa using hspec) with ⟨s, rfl⟩
        exact ⟨s, rfl⟩
    · rcases hlook : List.lookup "problem" p with _ | v
      · exact absurd (by rw [hlook]; rfl) hp
      · rw [hlook] at hprob
        rcases isStr_exists v (by simpa using hprob) with ⟨s, rfl⟩
        exact ⟨s, rfl⟩
  · simp at h

theorem load_problems_ok_inv (files : List (String × FileContent))
    (loaded : List (String × Problem))
    (h : load_problems files = Except.ok loaded) :
    loaded = files.filterMap load_file := by
  unfold load_problems at h
  split at h
  · simp at h
  split at h
  · simp at h
  injection h with h
  exact h.symm

/-- C9 counterexample: a problem whose `perturbations` are 5 non-string
elements is accepted by `_validate_problem` and stored by `_load_problems`
— non-string elements (like syntax-invalid code bodies) are never checked,
so this failure mode does not cause the problem to be rejected. -/
theorem nonstring_perturbations_accepted_counterexample :
    validate_problem "f.json" badPerturbElems = Except.ok () ∧
    load_problems [("f.json", FileContent.parsed badPerturbElems)] =
      Except.ok [("f.json", badPerturbElems)] := by
  exact ⟨rfl, rfl⟩

/-- C9 (amended): a problem failing one of the checked validation modes —
missing field, non-list or wrong-arity `perturbations`, non-string
`spec`/`problem` — is skipped rather than fatal, and every stored problem
has a 5-element `perturbations` list and string `spec` and `problem`
fields; but element types and code-body syntax are not validated, so such
problems are stored, not rejected. -/
theorem dataset_load_invariant (files : List (String × FileContent))
    (loaded : List (String × Problem))
    (h : load_problems files = Except.ok loaded) :
    (∀ name p, (name, p) ∈ loaded →
      validate_problem name p = Except.ok () ∧
      (∃ xs, List.lookup "perturbations" p = some (PyVal.list xs) ∧
        xs.length = 5) ∧
      (∃ s, List.lookup "spec" p = some (PyVal.str s)) ∧
      (∃ s, List.lookup "problem" p = some (PyVal.str s))) ∧
    (∀ name p, (name, FileContent.parsed p) ∈ files →
      validate_problem name p ≠ Except.ok () → (name, p) ∉ loaded) := by
  have hl := load_problems_ok_inv files loaded h
  have hmem : ∀ name p, (name, p) ∈ loaded →
      validate_problem name p = Except.ok () := by
    intro name p hm
    rw [hl] at hm
    rcases List.mem_filterMap.mp hm with ⟨⟨fname, fc⟩, _, hg⟩
    cases fc with
    | parseError msg => simp [load_file] at hg
    | parsed q =>
        simp only [load_file] at hg
        split at hg
        · rename_i u hv
          injection hg with hg
          rw [Prod.mk.injEq] at hg
          obtain ⟨rfl, rfl⟩ := hg
          cases u
          exact hv
        · simp at hg
  constructor
  · intro name p hm
    have hv := hmem name p hm
    exact ⟨hv, validate_problem_ok_inv name p hv⟩
  · intro name p _ hv hm
    exact hv (hmem name p hm)

/-- Witness for C9's amended theorem: loading a directory with one invalid
and one valid file stores only the valid one (the invalid one is skipped,
not fatal), and the stored problem satisfies the invariant. -/
theorem dataset_load_invariant_witness :
    (∃ xs, List.lookup "perturbations" goodProblem = some (PyVal.list xs) ∧
      xs.length = 5) ∧
    ("bad.json", missingFieldProblem) ∉ [("good.json", goodProblem)] := by
  have h := dataset_load_invariant
    [("bad.json", FileContent.parsed missingFieldProblem),
     ("good.json", FileContent.parsed goodProblem)]
    [("good.json", goodProblem)] rfl
  refine ⟨(h.1 "good.json" goodProblem (by simp)).2.1, ?_⟩
  refine h.2 "bad.json" missingFieldProblem (by simp) ?_
  intro hc
  rw [show validate_problem "bad.json" missingFieldProblem =
    Except.error "bad.json: Missing required field problem" from rfl] at hc
  cases hc

end RLTestGen
